import Mathlib

/-!
Verification development for the proforma-invoice generator
(three source variants: `3app.py`, `6app.py`, `7app.py`).

The data pipeline and the renderers' pure logic are shallowly embedded:
spreadsheet cells that may be missing (pandas `NaN`) are `Option` values,
quantities are integers, monetary values are rationals, and the Python
string-formatting directives used by the renderers (`{n:,}`, `{x:.2f}`,
`{x:,.2f}`) are implemented as executable Lean functions.
-/

/-! ## Python number formatting -/

/-- The decimal digit character for `n % 10`. -/
def digitChar (n : Nat) : Char := Char.ofNat (48 + n % 10)

/-- Fuel-driven accumulation of decimal digits, most significant first. -/
def natDigitsAux : Nat → Nat → List Char
  | 0, _ => []
  | fuel + 1, n =>
    if n = 0 then [] else natDigitsAux fuel (n / 10) ++ [digitChar (n % 10)]

/-- Decimal digits of a natural number, most significant first. -/
def natDigits (n : Nat) : List Char :=
  if n = 0 then ['0'] else natDigitsAux n n

/-- Decimal rendering of a natural number. -/
def natToStr (n : Nat) : String := String.mk (natDigits n)

/-- Exactly two decimal digits (used for the cents part of `:.2f`). -/
def twoDigits (n : Nat) : String :=
  String.mk [digitChar (n / 10), digitChar n]

/-- Insert a comma after every three digits; input and output are
least-significant-digit first. -/
def group3 : List Char → List Char
  | d1 :: d2 :: d3 :: d4 :: rest => d1 :: d2 :: d3 :: ',' :: group3 (d4 :: rest)
  | ds => ds

/-- Thousands-grouped decimal rendering of a natural number. -/
def natGrouped (n : Nat) : String :=
  String.mk ((group3 (natDigits n).reverse).reverse)

/-- Python `f"{n:,}"` for an integer: thousands-grouped. -/
def formatThousands (n : ℤ) : String :=
  if n < 0 then "-" ++ natGrouped (-n).toNat else natGrouped n.toNat

/-- Floor of a rational (the denominator is positive, so Euclidean division
of the numerator is floor division). -/
def ratFloor (q : ℚ) : ℤ := Int.ediv q.num q.den

/-- Round a rational to the nearest integer, ties to even
(the rounding used by Python `format` on exactly representable values). -/
def roundHalfEven (q : ℚ) : ℤ :=
  let f : ℤ := ratFloor q
  if q - f < 1 / 2 then f
  else if (1 / 2 : ℚ) < q - f then f + 1
  else if f % 2 = 0 then f else f + 1

/-- Python `f"{x:.2f}"`: fixed two decimal places, no grouping. -/
def formatFixed2 (q : ℚ) : String :=
  if roundHalfEven (q * 100) < 0 then
    "-" ++ natToStr ((-roundHalfEven (q * 100)).toNat / 100) ++ "."
      ++ twoDigits ((-roundHalfEven (q * 100)).toNat % 100)
  else
    natToStr ((roundHalfEven (q * 100)).toNat / 100) ++ "."
      ++ twoDigits ((roundHalfEven (q * 100)).toNat % 100)

/-- Python `f"{x:,.2f}"`: fixed two decimal places with a
thousands-grouped integer part. -/
def formatFixed2Comma (q : ℚ) : String :=
  if roundHalfEven (q * 100) < 0 then
    "-" ++ natGrouped ((-roundHalfEven (q * 100)).toNat / 100) ++ "."
      ++ twoDigits ((-roundHalfEven (q * 100)).toNat % 100)
  else
    natGrouped ((roundHalfEven (q * 100)).toNat / 100) ++ "."
      ++ twoDigits ((roundHalfEven (q * 100)).toNat % 100)

/-- Python `int(x)` on a rational: truncation toward zero. -/
def pyInt (q : ℚ) : ℤ := Int.tdiv q.num q.den

/-! ## Substring testing (Python `in` on strings) -/

/-- Does `p` occur at the head of `s`? -/
def leadMatch : List Char → List Char → Bool
  | _, [] => true
  | [], _ :: _ => false
  | a :: s, b :: p => (a = b) && leadMatch s p

/-- Does `p` occur anywhere in the list? -/
def innerMatch (p : List Char) : List Char → Bool
  | [] => leadMatch [] p
  | a :: t => leadMatch (a :: t) p || innerMatch p t

/-- Python `pat in s` for strings. -/
def hasSub (s pat : String) : Bool := innerMatch pat.data s.data

/-! ## Data model

A raw spreadsheet row (`RawRecord`) carries the six canonical columns of the
input schema (`Style`, `Description`, `Composition`, `USD Fob$`, `Total Qty`,
`Total Value`); a `none` field models a pandas missing value (`NaN`).
Quantity columns are integer-typed, monetary columns rational-typed. -/

structure RawRecord where
  style : Option String
  description : Option String
  composition : Option String
  unitPrice : Option ℚ
  qty : Option ℤ
  amount : Option ℚ
deriving DecidableEq

/-- One output row of `process_excel_data` (`7app.py` / `6app.py`): the result
of `groupby('Style').agg(...)`. -/
structure AggRecord where
  style : String
  description : Option String
  composition : Option String
  unitPrice : Option ℚ
  qty : ℤ
  amount : ℚ
deriving DecidableEq

/-- `df.dropna(subset=['Style'])`: drop exactly the rows whose `Style` cell is
missing (`NaN`); an empty string is not missing and is kept. -/
def cleanRecords (rs : List RawRecord) : List RawRecord :=
  rs.filter fun r => r.style.isSome

/-- Strict lexicographic order on character lists by code point — Python's
`<` on strings, which is the order `groupby(sort=True)` sorts keys by. -/
def ltL : List Char → List Char → Bool
  | [], [] => false
  | [], _ :: _ => true
  | _ :: _, [] => false
  | a :: s, b :: t =>
    if a.toNat < b.toNat then true
    else if b.toNat < a.toNat then false
    else ltL s t

/-- Non-strict code-point lexicographic order on strings. -/
def strLeB (a b : String) : Bool := !(ltL b.data a.data)

/-- Insert a string into a list sorted by `strLeB`, keeping it sorted. -/
def insertSorted (s : String) : List String → List String
  | [] => [s]
  | k :: t => if strLeB s k then s :: k :: t else k :: insertSorted s t

/-- Insertion sort by `strLeB`. -/
def sortKeys : List String → List String
  | [] => []
  | k :: t => insertSorted k (sortKeys t)

/-- The group keys produced by `groupby('Style')` with its default
`sort=True`: the distinct style values in ascending (lexicographic) order. -/
def sortedKeys (l : List RawRecord) : List String :=
  sortKeys ((l.filterMap fun r => r.style).dedup)

/-- The rows of `l` contributing to group `k`. -/
def groupFor (l : List RawRecord) (k : String) : List RawRecord :=
  l.filter fun r => r.style = some k

/-- The aggregation dictionary of `process_excel_data`: `'first'` takes the
first non-null value of the group (pandas `GroupBy.first` skips `NaN`),
`'sum'` adds the non-null values (pandas sum skips `NaN`). -/
def aggFor (l : List RawRecord) (k : String) : AggRecord :=
  let g := groupFor l k
  { style := k
    description := (g.filterMap fun r => r.description).head?
    composition := (g.filterMap fun r => r.composition).head?
    unitPrice := (g.filterMap fun r => r.unitPrice).head?
    qty := (g.filterMap fun r => r.qty).sum
    amount := (g.filterMap fun r => r.amount).sum }

/-- `process_excel_data` of `7app.py` / `6app.py`: drop rows with a missing
`Style`, group by `Style` (keys sorted, pandas default), take the first
description/composition/unit price and sum quantities and values. -/
def process_excel_data (rs : List RawRecord) : List AggRecord :=
  let clean := cleanRecords rs
  (sortedKeys clean).map (aggFor clean)

/-- Modelled from the spec: "Output group order = order of first appearance of
each distinct `style_id` in the input" — the distinct style values in order of
first appearance, used to compare against the code's sorted group order. -/
def firstSeenAux (seen : List String) : List String → List String
  | [] => []
  | s :: t => if s ∈ seen then firstSeenAux seen t else s :: firstSeenAux (s :: seen) t

/-- Modelled from the spec: distinct styles in order of first appearance. -/
def firstSeen (l : List String) : List String := firstSeenAux [] l

/-- Modelled from the spec: the sum of canonical quantities over the records
with a resolvable, *non-empty* style identifier (claim C1's right-hand side;
a missing numeric cell canonicalizes to `0`). -/
def canonQtySumNonEmpty (rs : List RawRecord) : ℤ :=
  ((rs.filter fun r => r.style.getD "" ≠ "").map fun r => r.qty.getD 0).sum

/-- Modelled from the spec: the sum of canonical amounts over the records with
a resolvable, non-empty style identifier. -/
def canonAmountSumNonEmpty (rs : List RawRecord) : ℚ :=
  ((rs.filter fun r => r.style.getD "" ≠ "").map fun r => r.amount.getD 0).sum

/-! ## Totals-in-words (`3app.py`, lines 256-263)

The words conversion engine (the external `num2words` library, together with
Python's `int()` conversion of the total) is abstracted as a parameter
`eng : ℤ → Option String`; `none` models the conversion raising. -/

/-- Clean up an engine result (lines 257-261): upper-case, replace the
zero-cents qualifier by ` DOLLARS`, and append ` DOLLARS` when the text
contains neither `CENTS` nor `DOLLARS`. -/
def wordCleanup (w : String) : String :=
  if hasSub ((w.toUpper).replace " AND ZERO CENTS" " DOLLARS") "CENTS"
      || hasSub ((w.toUpper).replace " AND ZERO CENTS" " DOLLARS") "DOLLARS"
  then (w.toUpper).replace " AND ZERO CENTS" " DOLLARS"
  else (w.toUpper).replace " AND ZERO CENTS" " DOLLARS" ++ " DOLLARS"

/-- The totals-in-words step of `3app.py`: convert the truncated total through
the engine and clean it up; on any conversion failure fall back to the
literal numeric rendering. -/
def amountWords (eng : ℤ → Option String) (total : ℚ) : String :=
  match eng (pyInt total) with
  | none => "TOTAL AMOUNT: $" ++ formatFixed2Comma total
  | some w => wordCleanup w

/-! ## `3app.py` renderer (`generate_proforma_invoice`, lines 69-298)

The renderer iterates over the rows of the (already grouped) dataframe; each
cell lookup is a column probe with a `NaN` check, so a row is modelled as a
record of `Option` fields (`none` = column missing or cell `NaN`). -/

structure Row3 where
  styleID : Option String
  itemDescription : Option String
  composition : Option String
  unitPrice : Option ℚ
  qty : Option ℤ
  amount : Option ℚ
  fabricType : Option String
  hsCode : Option String
  country : Option String
deriving DecidableEq

/-- The amount used for a rendered row (lines 167-175): the resolved amount,
except that a zero amount with positive quantity and price is recomputed as
`qty * price`. -/
def rowAmount3 (r : Row3) : ℚ :=
  if r.amount.getD 0 = 0 ∧ 0 < r.qty.getD 0 ∧ 0 < r.unitPrice.getD 0
  then (r.qty.getD 0 : ℚ) * r.unitPrice.getD 0
  else r.amount.getD 0

/-- Quantity cell (line 213): `f"{int(qty):,}" if qty > 0 else ""`. -/
def qtyCell3 (r : Row3) : String :=
  if 0 < r.qty.getD 0 then formatThousands (r.qty.getD 0) else ""

/-- Unit-price cell (line 214): `f"{price:.2f}" if price > 0 else ""`. -/
def priceCell3 (r : Row3) : String :=
  if 0 < r.unitPrice.getD 0 then formatFixed2 (r.unitPrice.getD 0) else ""

/-- Amount cell (line 215): `f"{amount:.2f}" if amount > 0 else ""`, applied
to the (possibly recomputed) row amount. -/
def amountCell3 (r : Row3) : String :=
  if 0 < rowAmount3 r then formatFixed2 (rowAmount3 r) else ""

/-- One data row of the main table (lines 206-216). -/
def cells3 (r : Row3) : List String :=
  [ r.styleID.getD ""
  , r.itemDescription.getD ""
  , r.fabricType.getD "KNITTED"
  , (r.hsCode.getD "61112000").replace "." ""
  , r.composition.getD ""
  , r.country.getD "India"
  , qtyCell3 r
  , priceCell3 r
  , amountCell3 r ]

/-- Running total quantity (line 177): the raw row quantities, summed. -/
def totalQty3 (rows : List Row3) : ℤ :=
  (rows.map fun r => r.qty.getD 0).sum

/-- Running total amount (line 178): the rendered row amounts, summed. -/
def totalAmount3 (rows : List Row3) : ℚ :=
  (rows.map rowAmount3).sum

/-- The header table of `3app.py` (lines 107-129), interpolating the PI
number, the current date, the PO reference and the shipment date. -/
def header3 (piNum poRef ship nowDMY : String) : List (List String) :=
  [ ["Supplier Name", "No. & date of PI"]
  , ["SAR APPARELS INDIA PVT.LTD.", piNum ++ " Dt. " ++ nowDMY]
  , ["ADDRESS : 6, Picaso Bithi, KOLKATA - 700017.", "Landmark order Reference: " ++ poRef]
  , ["PHONE : 9874173373", "Buyer Name: LANDMARK GROUP"]
  , ["FAX : N.A.", "Brand Name: Juniors"]
  , ["", "Payment Term: T/T"]
  , ["Consignee:-", ""]
  , ["RNA Resources Group Ltd- Landmark (Babyshop),", "Bank Details (Including Swift/IBAN)"]
  , ["P O Box 25030, Dubai, UAE,", ":- SAR APPARELS INDIA PVT.LTD"]
  , ["Tel: 00971 4 8095500, Fax: 00971 4 8095555/66", "BENEFICIARY"]
  , ["", "ACCOUNT NO :- 2112819952"]
  , ["", "BANK\x27S NAME :- KOTAK MAHINDRA BANK LTD"]
  , ["", "BANK ADDRESS :- 2 BRABOURNE ROAD, GOVIND BHAVAN, GROUND FLOOR,"]
  , ["", "KOLKATA-700001"]
  , ["", "SWIFT CODE :- KKBKINBBCPC"]
  , ["", "BANK CODE :- 0323"]
  , ["Loading Country: India", "L/C Advicing Bank (If Payment term LC Applicable )"]
  , ["Port of loading: Mumbai", ""]
  , ["Agreed Shipment Date: " ++ ship, ""]
  , ["REMARKS if ANY:-", ""]
  , ["Description of goods: Value Packs", "CURRENCY: USD"] ]

/-- The renderer-agnostic content of the `3app.py` PDF. -/
structure Invoice3 where
  header : List (List String)
  dataRows : List (List String)
  totalsRow : List String
  totalQty : ℤ
  totalAmount : ℚ
  words : String
  footer : List (List String)
deriving DecidableEq

/-- Python `arg or default` / `if not arg` treats both `None` and the empty
string as absent. -/
def orDefault (arg : Option String) (default : String) : String :=
  match arg with
  | none => default
  | some s => if s = "" then default else s

/-- `generate_proforma_invoice` of `3app.py`: the pure document content.
`nowMD` and `nowDMY` are the `%m%d` and `%d-%m-%Y` renderings of
`datetime.now()`; `eng` is the abstract `num2words` engine. -/
def generate_proforma_invoice (rows : List Row3) (eng : ℤ → Option String)
    (piNum poRef ship : Option String) (nowMD nowDMY : String) : Invoice3 :=
  let piR := orDefault piNum ("SAR/LG/" ++ nowMD)
  let poR := orDefault poRef "CPO/47062/25"
  let shipR := orDefault ship "07-02-2025"
  { header := header3 piR poR shipR nowDMY
    dataRows := rows.map cells3
    totalsRow := ["", "", "", "", "", "", "", "Total",
      formatFixed2 (totalAmount3 rows) ++ "USD"]
    totalQty := totalQty3 rows
    totalAmount := totalAmount3 rows
    words := "TOTAL US DOLLAR " ++ amountWords eng (totalAmount3 rows)
    footer :=
      [ ["Total\n" ++ formatThousands (totalQty3 rows), "Terms & Conditions (If Any)"]
      , ["", ""]
      , ["", ""]
      , ["Signed by …………………….(Affix Stamp here)",
         "for RNA Resources Group Ltd-Landmark (Babyshop)"] ] }

/-- `process_excel_data` of `3app.py` (lines 12-67) on the canonical input
schema: rename columns, group by the style identifier (pandas drops `NaN`
group keys and sorts the remaining keys), aggregate with `first`/`sum`, and
add the constant default columns `Fabric Type`, `HS Code`,
`Country of Origin`. -/
def process_excel_data3 (rs : List RawRecord) : List Row3 :=
  let clean := cleanRecords rs
  (sortedKeys clean).map fun k =>
    let g := groupFor clean k
    { styleID := some k
      itemDescription := (g.filterMap fun r => r.description).head?
      composition := (g.filterMap fun r => r.composition).head?
      unitPrice := (g.filterMap fun r => r.unitPrice).head?
      qty := some (g.filterMap fun r => r.qty).sum
      amount := some (g.filterMap fun r => r.amount).sum
      fabricType := some "KNITTED"
      hsCode := some "61112000"
      country := some "India" }

/-- Modelled from the spec: "if `amount == 0` and `quantity > 0` and
`unit_price > 0`, set `amount = quantity * unit_price`" applied per canonical
record *before* aggregation, then summed (claim C4's reading). -/
def specDerivedAmountSum (rs : List RawRecord) : ℚ :=
  ((cleanRecords rs).map fun r =>
    let qty := r.qty.getD 0
    let price := r.unitPrice.getD 0
    let amount := r.amount.getD 0
    if amount = 0 ∧ 0 < qty ∧ 0 < price then (qty : ℚ) * price else amount).sum

/-! ## `7app.py` renderer (`generate_html_invoice`, lines 22-281) -/

/-- One `<tr>` of the HTML main table (lines 38-50): an f-string renders a
missing pandas value as `"nan"`; `float(NaN)` stays `NaN` and `:.2f` renders
it as `"nan"` as well. -/
def rowCells7 (a : AggRecord) : List String :=
  [ a.style
  , a.description.getD "nan"
  , "KNITTED"
  , "61112000"
  , a.composition.getD "nan"
  , "India"
  , formatThousands a.qty
  , (match a.unitPrice with | some p => formatFixed2 p | none => "nan")
  , formatFixed2 a.amount ]

/-- The totals `<tr>` of `7app.py` (lines 248-253): a `Total` cell spanning
the first six columns, the grouped total quantity, an empty unit-price cell,
and the total amount suffixed `USD`. -/
def totalsRow7 (tq : ℤ) (ta : ℚ) : List String :=
  ["Total", formatThousands tq, "", formatFixed2 ta ++ "USD"]

/-- The renderer-agnostic content of the `7app.py` HTML document. -/
structure Invoice7 where
  headerPI : String
  headerRef : String
  dataRows : List (List String)
  totalsRow : List String
  totalQty : ℤ
  totalAmount : ℚ
  words : String
deriving DecidableEq

/-- `generate_html_invoice` of `7app.py`: process the data, sum the grouped
quantity and value columns, and assemble the document content.  The words
line (line 259) is `TOTAL US DOLLAR {total_amount:,.2f} DOLLARS`. -/
def generate_html_invoice (df : List RawRecord)
    (piNum dateStr cpoNum : String) : Invoice7 :=
  let processed := process_excel_data df
  let tq := (processed.map fun a => a.qty).sum
  let ta := (processed.map fun a => a.amount).sum
  { headerPI := piNum ++ " Dt. " ++ dateStr
    headerRef := "Landmark order Reference: " ++ cpoNum
    dataRows := processed.map rowCells7
    totalsRow := totalsRow7 tq ta
    totalQty := tq
    totalAmount := ta
    words := "TOTAL US DOLLAR " ++ formatFixed2Comma ta ++ " DOLLARS" }

/-! ## `6app.py` renderer (`generate_proforma_invoice`, lines 28-191) -/

/-- One data row of the `6app.py` main table (lines 117-127). -/
def rowCells6 (a : AggRecord) : List String :=
  [ a.style
  , a.description.getD "nan"
  , "KNITTED"
  , "61112000"
  , a.composition.getD "nan"
  , "India"
  , formatThousands a.qty
  , (match a.unitPrice with | some p => formatFixed2 p | none => "nan")
  , formatFixed2 a.amount ]

/-- The totals row of `6app.py` (lines 130-132): blank cells, a `Total`
label, the grouped total quantity, a blank unit-price cell, and the total
amount suffixed `USD`. -/
def totalsRow6 (tq : ℤ) (ta : ℚ) : List String :=
  ["", "", "", "", "", "Total", formatThousands tq, "", formatFixed2 ta ++ "USD"]

/-- The renderer-agnostic content of the `6app.py` PDF. -/
structure Invoice6 where
  headerPI : String
  headerRef : String
  dataRows : List (List String)
  totalsRow : List String
  totalQty : ℤ
  totalAmount : ℚ
  words : String
deriving DecidableEq

/-- `generate_proforma_invoice` of `6app.py`: process the data, accumulate the
totals over the rendered rows, and assemble the document content.  The words
line (lines 163-167) is `TOTAL US DOLLAR {amount:,.2f} DOLLARS` after
upper-casing. -/
def generate_proforma_invoice6 (df : List RawRecord)
    (piNum dateStr cpoNum : String) : Invoice6 :=
  let processed := process_excel_data df
  let tq := (processed.map fun a => a.qty).sum
  let ta := (processed.map fun a => a.amount).sum
  { headerPI := piNum ++ " Dt. " ++ dateStr
    headerRef := "Landmark order Reference: " ++ cpoNum
    dataRows := processed.map rowCells6
    totalsRow := totalsRow6 tq ta
    totalQty := tq
    totalAmount := ta
    words := "TOTAL " ++ ("US DOLLAR " ++ formatFixed2Comma ta).toUpper ++ " DOLLARS" }

/-! ## Ambient clock

An invocation is modelled with the ambient wall-clock time passed explicitly
(as the date strings a Python `datetime.now()` would be formatted into); a
generator is time-independent exactly when its result does not depend on that
argument.  `generate_html_invoice` and `generate_proforma_invoice6` read no
clock; `generate_proforma_invoice` (from `3app.py`) stamps the current date
into its header and uses it for the default PI number. -/

/-- An invocation of the `7app.py` generator at clock time `nowDMY`. -/
def generateAtTime7 (nowDMY : String) (df : List RawRecord)
    (piNum dateStr cpoNum : String) : Invoice7 :=
  generate_html_invoice df piNum dateStr cpoNum

/-- An invocation of the `6app.py` generator at clock time `nowDMY`. -/
def generateAtTime6 (nowDMY : String) (df : List RawRecord)
    (piNum dateStr cpoNum : String) : Invoice6 :=
  generate_proforma_invoice6 df piNum dateStr cpoNum

/-- An invocation of the `3app.py` generator at clock time
(`nowMD`, `nowDMY`). -/
def generateAtTime3 (nowMD nowDMY : String) (rows : List Row3)
    (eng : ℤ → Option String) (piNum poRef ship : Option String) : Invoice3 :=
  generate_proforma_invoice rows eng piNum poRef ship nowMD nowDMY

/-! ## Concrete inputs used by counterexamples and witnesses -/

/-- A words-conversion engine that always fails. -/
def engNone : ℤ → Option String := fun _ => none

/-- One record whose style cell holds the empty string (present, not `NaN`). -/
def emptyStyleInput : List RawRecord :=
  [{ style := some "", description := none, composition := none,
     unitPrice := none, qty := some 5, amount := some 5 }]

/-- Two records whose styles first appear in the order `B`, `A`. -/
def exC2 : List RawRecord :=
  [ { style := some "B", description := none, composition := none,
      unitPrice := none, qty := some 1, amount := some 1 }
  , { style := some "A", description := none, composition := none,
      unitPrice := none, qty := some 2, amount := some 2 } ]

/-- Two records of one style with no amount column and differing unit
prices. -/
def exC4 : List RawRecord :=
  [ { style := some "A", description := some "d", composition := some "c",
      unitPrice := some (5/2), qty := some 10, amount := none }
  , { style := some "A", description := some "d", composition := some "c",
      unitPrice := some 3, qty := some 10, amount := none } ]

/-- The grouped row obtained from a single record with quantity `10`, unit
price `2.5` and no amount column (`3app.py` pipeline state before
rendering). -/
def rowC4w : Row3 :=
  { styleID := some "A", itemDescription := some "d", composition := some "c",
    unitPrice := some (5/2), qty := some 10, amount := some 0,
    fabricType := some "KNITTED", hsCode := some "61112000",
    country := some "India" }

/-- Two records for style `A` with descriptions `desc1`, `desc2` in input
order, every field present. -/
def exC5 : List RawRecord :=
  [ { style := some "A", description := some "desc1", composition := some "c1",
      unitPrice := some 1, qty := some 1, amount := some 1 }
  , { style := some "A", description := some "desc2", composition := some "c2",
      unitPrice := some 2, qty := some 1, amount := some 1 } ]

/-- The first record of `exC5`. -/
def recC5 : RawRecord :=
  { style := some "A", description := some "desc1", composition := some "c1",
    unitPrice := some 1, qty := some 1, amount := some 1 }

/-- The aggregated output of `exC5`. -/
def aggC5 : AggRecord :=
  { style := "A", description := some "desc1", composition := some "c1",
    unitPrice := some 1, qty := 2, amount := 2 }

/-- Two records for style `A` whose first record has a missing description. -/
def exC5x : List RawRecord :=
  [ { style := some "A", description := none, composition := none,
      unitPrice := some 1, qty := some 1, amount := some 1 }
  , { style := some "A", description := some "desc2", composition := none,
      unitPrice := some 1, qty := some 1, amount := some 1 } ]

/-- The first record of `exC5x`: its description cell is missing. -/
def recC5x : RawRecord :=
  { style := some "A", description := none, composition := none,
    unitPrice := some 1, qty := some 1, amount := some 1 }

/-- An aggregated record with quantity exactly `0`. -/
def aggC7 : AggRecord :=
  { style := "S1", description := some "d", composition := some "c",
    unitPrice := some 1, qty := 0, amount := 0 }

/-- A grouped `3app.py` row with quantity `0`, used as a witness input. -/
def rowC7w : Row3 :=
  { styleID := some "S1", itemDescription := some "d", composition := some "c",
    unitPrice := none, qty := some 0, amount := none,
    fabricType := some "KNITTED", hsCode := some "61112000",
    country := some "India" }

/-- One grouped row with quantity `4107` and amount `24642`. -/
def rowsC6 : List Row3 :=
  [{ styleID := some "SAV001S25", itemDescription := some "Bodysuit",
     composition := some "100% Cotton", unitPrice := some 6,
     qty := some 4107, amount := some 24642,
     fabricType := some "KNITTED", hsCode := some "61112000",
     country := some "India" }]

/-! ## Helper lemmas: strings and digits -/

theorem strDataAppend (a b : String) : (a ++ b).data = a.data ++ b.data := rfl

theorem digitChar_ne_comma (n : Nat) : digitChar n ≠ ',' := by
  have h10 : n % 10 < 10 := Nat.mod_lt _ (by norm_num)
  have hall : ∀ m, m < 10 → Char.ofNat (48 + m) ≠ ',' := by decide
  exact hall (n % 10) h10

theorem comma_not_mem_natDigitsAux :
    ∀ (fuel n : Nat), ',' ∉ natDigitsAux fuel n := by
  intro fuel
  induction fuel with
  | zero => intro n; simp [natDigitsAux]
  | succ f ih =>
    intro n
    simp only [natDigitsAux]
    split
    · simp
    · intro hmem
      rcases List.mem_append.mp hmem with h | h
      · exact ih _ h
      · rcases List.mem_singleton.mp h with h
        exact digitChar_ne_comma _ h.symm

theorem comma_not_mem_natDigits (n : Nat) : ',' ∉ natDigits n := by
  unfold natDigits
  split
  · decide
  · exact comma_not_mem_natDigitsAux n n

theorem comma_not_mem_twoDigits (n : Nat) : ',' ∉ (twoDigits n).data := by
  intro h
  rcases List.mem_cons.mp h with h | h
  · exact digitChar_ne_comma _ h.symm
  · rcases List.mem_cons.mp h with h | h
    · exact digitChar_ne_comma _ h.symm
    · simp at h

theorem comma_not_mem_fixedOf (c : ℤ) :
    ',' ∉ (if c < 0 then
        "-" ++ natToStr ((-c).toNat / 100) ++ "." ++ twoDigits ((-c).toNat % 100)
      else natToStr (c.toNat / 100) ++ "." ++ twoDigits (c.toNat % 100)).data := by
  split <;> intro hmem <;> simp only [strDataAppend, List.mem_append] at hmem
  · rcases hmem with ((h | h) | h) | h
    · revert h; decide
    · exact comma_not_mem_natDigits _ h
    · revert h; decide
    · exact comma_not_mem_twoDigits _ h
  · rcases hmem with (h | h) | h
    · exact comma_not_mem_natDigits _ h
    · revert h; decide
    · exact comma_not_mem_twoDigits _ h

theorem comma_not_mem_formatFixed2 (q : ℚ) : ',' ∉ (formatFixed2 q).data := by
  unfold formatFixed2
  exact comma_not_mem_fixedOf (roundHalfEven (q * 100))

/-! ## Helper lemmas: substring search -/

theorem innerMatch_append_right (p : List Char) :
    ∀ (x y : List Char), innerMatch p y = true → innerMatch p (x ++ y) = true := by
  intro x
  induction x with
  | nil => intro y h; simpa using h
  | cons a t ih =>
    intro y h
    simp only [List.cons_append, innerMatch, Bool.or_eq_true]
    exact Or.inr (ih y h)

theorem hasSub_append_right (a b p : String) (h : hasSub b p = true) :
    hasSub (a ++ b) p = true := by
  unfold hasSub at h ⊢
  rw [strDataAppend]
  exact innerMatch_append_right _ _ _ h

/-! ## Helper lemmas: partitioning a sum over group keys -/

theorem sum_map_getD {M : Type} [AddCommMonoid M] (h : RawRecord → Option M) :
    ∀ (g : List RawRecord), (g.filterMap h).sum = (g.map fun r => (h r).getD 0).sum := by
  intro g
  induction g with
  | nil => rfl
  | cons r t ih =>
    cases hr : h r with
    | none => simp [List.filterMap_cons, hr, ih]
    | some v => simp [List.filterMap_cons, hr, ih]

theorem sum_map_ite_eq {M : Type} [AddCommMonoid M] (c : M) :
    ∀ (ks : List String) (s : String), ks.Nodup → s ∈ ks →
      (ks.map fun k => if s = k then c else 0).sum = c := by
  intro ks
  induction ks with
  | nil => intro s _ h; cases h
  | cons k t ih =>
    intro s hnd hmem
    rw [List.map_cons, List.sum_cons]
    rcases List.mem_cons.mp hmem with h | h
    · subst h
      rw [if_pos rfl]
      have hz : ∀ x ∈ t.map fun k => if s = k then c else 0, x = 0 := by
        intro x hx
        rcases List.mem_map.mp hx with ⟨y, hy, hxy⟩
        have hne : s ≠ y := fun hsy => (List.nodup_cons.mp hnd).1 (hsy ▸ hy)
        rw [← hxy, if_neg hne]
      rw [List.sum_eq_zero hz, add_zero]
    · have hne : s ≠ k := fun h2 => (List.nodup_cons.mp hnd).1 (h2 ▸ h)
      rw [if_neg hne, zero_add]
      exact ih s (List.nodup_cons.mp hnd).2 h

theorem sum_split {M : Type} [AddCommMonoid M] (f : RawRecord → M) :
    ∀ (l : List RawRecord) (ks : List String), ks.Nodup →
      (∀ r ∈ l, ∃ s, r.style = some s ∧ s ∈ ks) →
      (ks.map fun k => ((groupFor l k).map f).sum).sum = (l.map f).sum := by
  intro l
  induction l with
  | nil =>
    intro ks _ _
    simp [groupFor]
  | cons r t ih =>
    intro ks hnd hmem
    obtain ⟨s, hrs, hsk⟩ := hmem r (List.mem_cons_self r t)
    have hsplit : ∀ k : String, ((groupFor (r :: t) k).map f).sum
        = (if s = k then f r else 0) + ((groupFor t k).map f).sum := by
      intro k
      unfold groupFor
      rw [List.filter_cons]
      by_cases hk : s = k
      · subst hk
        simp [hrs]
      · have : ¬ (r.style = some k) := by
          rw [hrs]
          exact fun hc => hk (Option.some.injEq _ _ ▸ hc)
        simp [this, hk]
    have hmap : (ks.map fun k => ((groupFor (r :: t) k).map f).sum)
        = ks.map fun k => (if s = k then f r else 0) + ((groupFor t k).map f).sum := by
      exact List.map_congr_left fun k _ => hsplit k
    rw [hmap, List.sum_map_add, sum_map_ite_eq (f r) ks s hnd hsk,
      ih ks hnd (fun x hx => hmem x (List.mem_cons_of_mem r hx)),
      List.map_cons, List.sum_cons]

/-! ## Helper lemmas: the key sort -/

theorem insertSorted_perm (s : String) :
    ∀ (l : List String), (insertSorted s l).Perm (s :: l) := by
  intro l
  induction l with
  | nil => exact List.Perm.refl _
  | cons k t ih =>
    unfold insertSorted
    split
    · exact List.Perm.refl _
    · exact (List.Perm.cons k ih).trans (List.Perm.swap s k t)

theorem sortKeys_perm : ∀ (l : List String), (sortKeys l).Perm l := by
  intro l
  induction l with
  | nil => exact List.Perm.refl _
  | cons k t ih =>
    exact (insertSorted_perm k (sortKeys t)).trans (List.Perm.cons k ih)

theorem mem_sortKeys {x : String} {l : List String} :
    x ∈ sortKeys l ↔ x ∈ l := (sortKeys_perm l).mem_iff

theorem nodup_sortKeys {l : List String} (h : l.Nodup) : (sortKeys l).Nodup :=
  ((sortKeys_perm l).nodup_iff).mpr h

theorem ltL_asymm : ∀ (x y : List Char), ltL x y = true → ltL y x = true → False := by
  intro x
  induction x with
  | nil =>
    intro y h1 h2
    cases y with
    | nil => simp [ltL] at h1
    | cons b t => simp [ltL] at h2
  | cons a s ih =>
    intro y h1 h2
    cases y with
    | nil => simp [ltL] at h1
    | cons b t =>
      by_cases hab : a.toNat < b.toNat
      · have hba : ¬ b.toNat < a.toNat := by omega
        simp [ltL, hab, hba] at h2
      · by_cases hba : b.toNat < a.toNat
        · simp [ltL, hab, hba] at h1
        · simp [ltL, hab, hba] at h1 h2
          exact ih t h1 h2

theorem ltL_step : ∀ (x y z : List Char), ltL x z = true →
    ltL x y = true ∨ ltL y z = true := by
  intro x
  induction x with
  | nil =>
    intro y z h
    cases y with
    | nil => exact Or.inr h
    | cons b t => exact Or.inl (by simp [ltL])
  | cons a s ih =>
    intro y z h
    cases z with
    | nil => simp [ltL] at h
    | cons c u =>
      cases y with
      | nil => exact Or.inr (by simp [ltL])
      | cons b t =>
        by_cases hab : a.toNat < b.toNat
        · exact Or.inl (by simp [ltL, hab])
        · by_cases hbc : b.toNat < c.toNat
          · exact Or.inr (by simp [ltL, hbc])
          · by_cases hac : a.toNat < c.toNat
            · omega
            · by_cases hca : c.toNat < a.toNat
              · simp [ltL, hac, hca] at h
              · have hba : ¬ b.toNat < a.toNat := by omega
                have hcb : ¬ c.toNat < b.toNat := by omega
                simp [ltL, hac, hca] at h
                rcases ih t u h with h' | h'
                · exact Or.inl (by simp [ltL, hab, hba, h'])
                · exact Or.inr (by simp [ltL, hbc, hcb, h'])

theorem strLeB_total {a b : String} (h : strLeB a b = false) : strLeB b a = true := by
  unfold strLeB at h ⊢
  rw [Bool.not_eq_false'] at h
  rw [Bool.not_eq_true']
  cases hba : ltL a.data b.data with
  | false => rfl
  | true => exact (ltL_asymm _ _ h hba).elim

theorem strLeB_trans {a b c : String} (h1 : strLeB a b = true)
    (h2 : strLeB b c = true) : strLeB a c = true := by
  unfold strLeB at h1 h2 ⊢
  rw [Bool.not_eq_true'] at h1 h2
  rw [Bool.not_eq_true']
  cases hca : ltL c.data a.data with
  | false => rfl
  | true =>
    rcases ltL_step c.data b.data a.data hca with h' | h'
    · simp [h'] at h2
    · simp [h'] at h1

theorem mem_insertSorted {x s : String} {l : List String} :
    x ∈ insertSorted s l ↔ x = s ∨ x ∈ l := by
  rw [(insertSorted_perm s l).mem_iff, List.mem_cons]

theorem pairwise_insertSorted :
    ∀ (l : List String) (s : String),
      l.Pairwise (fun a b => strLeB a b = true) →
      (insertSorted s l).Pairwise (fun a b => strLeB a b = true) := by
  intro l
  induction l with
  | nil =>
    intro s _
    simp [insertSorted]
  | cons k t ih =>
    intro s hp
    rw [List.pairwise_cons] at hp
    unfold insertSorted
    split
    · rename_i hle
      rw [List.pairwise_cons]
      refine ⟨?_, List.pairwise_cons.mpr hp⟩
      intro x hx
      rcases List.mem_cons.mp hx with h | h
      · exact h ▸ hle
      · exact strLeB_trans hle (hp.1 x h)
    · rename_i hgt
      rw [List.pairwise_cons]
      refine ⟨?_, ih s hp.2⟩
      intro x hx
      rcases mem_insertSorted.mp hx with h | h
      · subst h
        exact strLeB_total (Bool.not_eq_true _ ▸ hgt)
      · exact hp.1 x h

theorem pairwise_sortKeys :
    ∀ (l : List String), (sortKeys l).Pairwise (fun a b => strLeB a b = true) := by
  intro l
  induction l with
  | nil => simp [sortKeys]
  | cons k t ih => exact pairwise_insertSorted _ k ih

/-! ## Claim theorems -/

/-- Claim C1 (counterexample): the aggregation-sum equality stated over the
records with a *non-empty* style identifier fails: a record whose style cell
holds the empty string survives `dropna` and is counted by the pipeline,
while the claim's right-hand side excludes it (`5 ≠ 0`). -/
theorem c1_counterexample :
    ((process_excel_data emptyStyleInput).map fun a => a.qty).sum = 5
    ∧ canonQtySumNonEmpty emptyStyleInput = 0
    ∧ ((process_excel_data emptyStyleInput).map fun a => a.amount).sum = 5
    ∧ canonAmountSumNonEmpty emptyStyleInput = 0
    ∧ (5 : ℤ) ≠ 0 ∧ (5 : ℚ) ≠ 0 := by
  refine ⟨?_, ?_, ?_, ?_, ?_, ?_⟩ <;> with_unfolding_all decide

/-- Claim C1 (amended): for every input record set, the sum of quantity over
all aggregated rows equals the sum of canonical quantity over the records
whose style cell is present (non-`NaN`; the empty string included), and the
same holds for amount — grouping neither loses nor double-counts. -/
theorem c1_aggregation_sum (rs : List RawRecord) :
    ((process_excel_data rs).map fun a => a.qty).sum
      = ((cleanRecords rs).map fun r => r.qty.getD 0).sum
    ∧ ((process_excel_data rs).map fun a => a.amount).sum
      = ((cleanRecords rs).map fun r => r.amount.getD 0).sum := by
  have hnd : (sortedKeys (cleanRecords rs)).Nodup :=
    nodup_sortKeys (List.nodup_dedup _)
  have hcov : ∀ r ∈ cleanRecords rs,
      ∃ s, r.style = some s ∧ s ∈ sortedKeys (cleanRecords rs) := by
    intro r hr
    have hsome : r.style.isSome := (List.mem_filter.mp hr).2
    obtain ⟨s, hs⟩ := Option.isSome_iff_exists.mp hsome
    refine ⟨s, hs, ?_⟩
    unfold sortedKeys
    rw [mem_sortKeys, List.mem_dedup]
    exact List.mem_filterMap.mpr ⟨r, hr, hs⟩
  constructor
  · have hq : ((process_excel_data rs).map fun a => a.qty)
        = (sortedKeys (cleanRecords rs)).map
            fun k => ((groupFor (cleanRecords rs) k).map fun r => r.qty.getD 0).sum := by
      unfold process_excel_data
      rw [List.map_map]
      refine List.map_congr_left fun k _ => ?_
      show ((groupFor (cleanRecords rs) k).filterMap fun r => r.qty).sum = _
      exact sum_map_getD _ _
    rw [hq]
    exact sum_split (fun r => r.qty.getD 0) (cleanRecords rs) _ hnd hcov
  · have ha : ((process_excel_data rs).map fun a => a.amount)
        = (sortedKeys (cleanRecords rs)).map
            fun k => ((groupFor (cleanRecords rs) k).map fun r => r.amount.getD 0).sum := by
      unfold process_excel_data
      rw [List.map_map]
      refine List.map_congr_left fun k _ => ?_
      show ((groupFor (cleanRecords rs) k).filterMap fun r => r.amount).sum = _
      exact sum_map_getD _ _
    rw [ha]
    exact sum_split (fun r => r.amount.getD 0) (cleanRecords rs) _ hnd hcov

/-- Claim C2 (counterexample): for styles first appearing in input order
`B`, `A`, the pipeline outputs the groups ordered `A`, `B` (pandas
`groupby` sorts keys), not in order of first appearance. -/
theorem c2_counterexample :
    (process_excel_data exC2).map (fun a => a.style) = ["A", "B"]
    ∧ firstSeen (exC2.filterMap fun r => r.style) = ["B", "A"]
    ∧ (["A", "B"] : List String) ≠ ["B", "A"] := by
  refine ⟨?_, ?_, ?_⟩ <;> with_unfolding_all decide

/-- Claim C2 (amended): the output aggregated rows are ordered by ascending
style identifier (code-point lexicographic, pandas `groupby(sort=True)`),
not by first appearance in the input. -/
theorem c2_sorted_output (rs : List RawRecord) :
    ((process_excel_data rs).map fun a => a.style).Pairwise
      (fun a b => strLeB a b = true) := by
  have h : ((process_excel_data rs).map fun a => a.style)
      = sortedKeys (cleanRecords rs) := by
    unfold process_excel_data
    rw [List.map_map]
    have hcomp : ((fun a => a.style) ∘ aggFor (cleanRecords rs))
        = fun k : String => k := rfl
    rw [hcomp, List.map_id']
  rw [h]
  exact pairwise_sortKeys _

/-- Claim C3 (code bug): a record whose style cell is the empty string is not
"excluded entirely" — `dropna(subset=['Style'])` keeps it (contradicting the
code's own comment "Filter out rows where Style is NaN or empty"), it is
grouped under the empty style and its quantity and amount are counted; no
skip is reported anywhere. -/
theorem c3_empty_style_kept :
    process_excel_data emptyStyleInput
      = [{ style := "", description := none, composition := none,
           unitPrice := none, qty := 5, amount := 5 }]
    ∧ ((process_excel_data emptyStyleInput).map fun a => a.qty).sum = 5 := by
  refine ⟨?_, ?_⟩ <;> with_unfolding_all decide

/-- Claim C4 (counterexample): the derivation `amount = qty * price` is not
applied per canonical record before aggregation.  For two records of one
style with missing amounts, quantities `10`, `10` and unit prices `2.5`,
`3.0`, the `3app.py` pipeline derives the amount from the *aggregated* row
(summed quantity `20`, first-seen price `2.5`), giving `50`, whereas the
claimed per-record derivation before aggregation gives `25 + 30 = 55`. -/
theorem c4_counterexample :
    totalAmount3 (process_excel_data3 exC4) = 50
    ∧ specDerivedAmountSum exC4 = 55
    ∧ (50 : ℚ) ≠ 55 := by
  refine ⟨?_, ?_, ?_⟩ <;> with_unfolding_all decide

/-- Claim C4 (amended): the derivation happens in the `3app.py` renderer,
after aggregation: for every rendered row whose resolved amount is `0` while
its quantity and unit price are positive, the row amount is recomputed as
`quantity * unit_price` before being summed into the document total; a single
record with quantity `10`, unit price `2.5` and no amount column yields
amount `25.00`. -/
theorem c4_row_amount_derivation (r : Row3)
    (h0 : r.amount.getD 0 = 0) (hq : 0 < r.qty.getD 0)
    (hp : 0 < r.unitPrice.getD 0) :
    rowAmount3 r = (r.qty.getD 0 : ℚ) * r.unitPrice.getD 0 := by
  unfold rowAmount3
  rw [if_pos ⟨h0, hq, hp⟩]

/-- Witness for C4: the grouped row of the single-record input has amount
`0`, quantity `10` and price `2.5`; the theorem gives `rowAmount3 = 25`,
rendered as `25.00` — and the full `3app.py` pipeline on that single record
produces exactly this grouped row. -/
theorem c4_row_amount_derivation_witness :
    process_excel_data3
        [{ style := some "A", description := some "d", composition := some "c",
           unitPrice := some (5/2), qty := some 10, amount := none }] = [rowC4w]
    ∧ rowAmount3 rowC4w = (rowC4w.qty.getD 0 : ℚ) * rowC4w.unitPrice.getD 0
    ∧ formatFixed2 (rowAmount3 rowC4w) = "25.00" :=
  ⟨by with_unfolding_all decide,
   c4_row_amount_derivation rowC4w rfl (by decide) (by with_unfolding_all decide),
   by with_unfolding_all decide⟩

/-- Claim C5 (counterexample): the aggregated description is the first
*non-null* description of the group (pandas `first` skips `NaN`), not that of
the first contributing record: when the first record's description cell is
missing (canonically the empty string), the output carries the second
record's `desc2`. -/
theorem c5_counterexample :
    (process_excel_data exC5x).map (fun a => a.description) = [some "desc2"]
    ∧ exC5x.head? = some recC5x
    ∧ recC5x.description = none
    ∧ (some "desc2" : Option String) ≠ none := by
  refine ⟨?_, ?_, ?_, ?_⟩ <;> with_unfolding_all decide

/-- Claim C5 (amended): for every group, the aggregated description,
composition and unit price equal the corresponding field of the first
contributing record *whenever that record's field is present*; in particular
two fully-populated records for style `A` with descriptions
`["desc1", "desc2"]` aggregate to `desc1`. -/
theorem c5_first_seen (rs : List RawRecord) (a : AggRecord)
    (ha : a ∈ process_excel_data rs) (r : RawRecord)
    (hr : (groupFor (cleanRecords rs) a.style).head? = some r) :
    (r.description.isSome → a.description = r.description)
    ∧ (r.composition.isSome → a.composition = r.composition)
    ∧ (r.unitPrice.isSome → a.unitPrice = r.unitPrice) := by
  unfold process_excel_data at ha
  rcases List.mem_map.mp ha with ⟨k, hk, hak⟩
  subst hak
  have hstyle : (aggFor (cleanRecords rs) k).style = k := rfl
  rw [hstyle] at hr
  cases hg : groupFor (cleanRecords rs) k with
  | nil => rw [hg] at hr; cases hr
  | cons r0 t =>
    rw [hg] at hr
    have hr0 : r0 = r := by simpa using hr
    subst hr0
    refine ⟨?_, ?_, ?_⟩
    · intro hd
      obtain ⟨d, hdd⟩ := Option.isSome_iff_exists.mp hd
      show ((groupFor (cleanRecords rs) k).filterMap fun x => x.description).head?
        = r0.description
      rw [hg]
      simp [List.filterMap_cons, hdd]
    · intro hd
      obtain ⟨d, hdd⟩ := Option.isSome_iff_exists.mp hd
      show ((groupFor (cleanRecords rs) k).filterMap fun x => x.composition).head?
        = r0.composition
      rw [hg]
      simp [List.filterMap_cons, hdd]
    · intro hd
      obtain ⟨d, hdd⟩ := Option.isSome_iff_exists.mp hd
      show ((groupFor (cleanRecords rs) k).filterMap fun x => x.unitPrice).head?
        = r0.unitPrice
      rw [hg]
      simp [List.filterMap_cons, hdd]

/-- Witness for C5: on the two-record input `exC5` the aggregated row is
`aggC5`, whose description/composition/unit price are those of the first
record `recC5` — in particular the description is `desc1`. -/
theorem c5_first_seen_witness :
    aggC5.description = recC5.description
    ∧ aggC5.composition = recC5.composition
    ∧ aggC5.unitPrice = recC5.unitPrice
    ∧ aggC5.description = some "desc1" := by
  have h := c5_first_seen exC5 aggC5 (by with_unfolding_all decide) recC5
    (by with_unfolding_all decide)
  exact ⟨h.1 (by decide), h.2.1 (by decide), h.2.2 (by decide), by decide⟩

/-- Claim C6 (counterexample): the `3app.py` totals row does not contain the
total quantity at all — for a document with total quantity `4107` (rendered
`4,107` when grouped) the totals row is
`["","","","","","","","Total","24642.00USD"]`; the quantity appears only in
the footer block. -/
theorem c6_counterexample :
    (generate_proforma_invoice rowsC6 engNone (some "PI") (some "PO")
        (some "SD") "0101" "01-01-2025").totalQty = 4107
    ∧ (generate_proforma_invoice rowsC6 engNone (some "PI") (some "PO")
        (some "SD") "0101" "01-01-2025").totalsRow
      = ["", "", "", "", "", "", "", "Total", "24642.00USD"]
    ∧ formatThousands 4107 = "4,107"
    ∧ "4,107" ∉ (generate_proforma_invoice rowsC6 engNone (some "PI")
        (some "PO") (some "SD") "0101" "01-01-2025").totalsRow := by
  refine ⟨?_, ?_, ?_, ?_⟩ <;> with_unfolding_all decide

/-- Claim C6 (amended): in the `6app.py` and `7app.py` documents the totals
row consists of blank cells, a `Total` label, the thousands-grouped total
quantity, and the total amount rendered with exactly two decimal places
immediately suffixed by `USD` (no thousands separator, no space); in the
`3app.py` document the totals row carries only the `Total` label and the
amount cell, while the thousands-grouped total quantity is interpolated into
the footer block instead. -/
theorem c6_totals_row_shape (tq : ℤ) (ta : ℚ) (rows : List Row3)
    (eng : ℤ → Option String) (piNum poRef ship : Option String)
    (nMD nDMY : String) :
    totalsRow6 tq ta
      = ["", "", "", "", "", "Total", formatThousands tq, "",
         formatFixed2 ta ++ "USD"]
    ∧ totalsRow7 tq ta
      = ["Total", formatThousands tq, "", formatFixed2 ta ++ "USD"]
    ∧ (∃ intPart cents, formatFixed2 ta = intPart ++ "." ++ twoDigits cents
        ∧ (twoDigits cents).length = 2)
    ∧ ',' ∉ (formatFixed2 ta).data
    ∧ (generate_proforma_invoice rows eng piNum poRef ship nMD nDMY).totalsRow
      = ["", "", "", "", "", "", "", "Total",
         formatFixed2 (totalAmount3 rows) ++ "USD"]
    ∧ (generate_proforma_invoice rows eng piNum poRef ship nMD nDMY).footer
      = [["Total\n" ++ formatThousands (totalQty3 rows),
          "Terms & Conditions (If Any)"], ["", ""], ["", ""],
         ["Signed by …………………….(Affix Stamp here)",
          "for RNA Resources Group Ltd-Landmark (Babyshop)"]] := by
  refine ⟨rfl, rfl, ?_, comma_not_mem_formatFixed2 ta, rfl, rfl⟩
  unfold formatFixed2
  split
  · exact ⟨"-" ++ natToStr ((-(roundHalfEven (ta * 100))).toNat / 100),
      (-(roundHalfEven (ta * 100))).toNat % 100, rfl, rfl⟩
  · exact ⟨natToStr ((roundHalfEven (ta * 100)).toNat / 100),
      (roundHalfEven (ta * 100)).toNat % 100, rfl, rfl⟩

/-- Claim C7 (counterexample): the `7app.py` renderer has no zero special
case — an aggregated row with quantity exactly `0` renders the quantity cell
as `"0"` (and the amount cell as `"0.00"`), not as the empty string. -/
theorem c7_counterexample :
    rowCells7 aggC7
      = ["S1", "d", "KNITTED", "61112000", "c", "India", "0", "1.00", "0.00"]
    ∧ ("0" : String) ≠ "" := by
  refine ⟨?_, ?_⟩ <;> with_unfolding_all decide

/-- Claim C7 (amended): only the `3app.py` renderer blanks zero cells: its
quantity cell is the thousands-grouped integer when the quantity is positive
and the empty string when it is `0` (or negative), and likewise the
unit-price and amount cells are two-decimal renderings when positive and
empty when `0`; the `6app.py`/`7app.py` renderers instead always render
`"0"` / `"0.00"`. -/
theorem c7_zero_blank_cells (r : Row3) :
    (r.qty.getD 0 = 0 → qtyCell3 r = "")
    ∧ (0 < r.qty.getD 0 → qtyCell3 r = formatThousands (r.qty.getD 0))
    ∧ (r.unitPrice.getD 0 = 0 → priceCell3 r = "")
    ∧ (0 < r.unitPrice.getD 0 → priceCell3 r = formatFixed2 (r.unitPrice.getD 0))
    ∧ (rowAmount3 r = 0 → amountCell3 r = "")
    ∧ (0 < rowAmount3 r → amountCell3 r = formatFixed2 (rowAmount3 r)) := by
  refine ⟨?_, ?_, ?_, ?_, ?_, ?_⟩
  · intro h; unfold qtyCell3; rw [h]; simp
  · intro h; unfold qtyCell3; rw [if_pos h]
  · intro h; unfold priceCell3; rw [h]; simp
  · intro h; unfold priceCell3; rw [if_pos h]
  · intro h; unfold amountCell3; rw [h]; simp
  · intro h; unfold amountCell3; rw [if_pos h]

/-- Witness for C7: a grouped row with quantity `0` renders an empty quantity
cell in the `3app.py` renderer. -/
theorem c7_zero_blank_cells_witness :
    rowC7w.qty.getD 0 = 0 ∧ qtyCell3 rowC7w = "" :=
  ⟨rfl, (c7_zero_blank_cells rowC7w).1 rfl⟩

/-- Claim C8 (confirmed): the totals-in-words step is total — whenever the
conversion (Python `int()` plus the `num2words` engine, abstracted as `eng`)
fails, the result is exactly the literal fallback
`TOTAL AMOUNT: $<total formatted :,.2f>`; whenever it succeeds, the cleaned
result always contains `DOLLARS` or `CENTS` (the zero-cents qualifier having
been replaced and ` DOLLARS` appended when neither word was present). -/
theorem c8_words_total :
    (∀ (eng : ℤ → Option String) (q : ℚ), eng (pyInt q) = none →
      amountWords eng q = "TOTAL AMOUNT: $" ++ formatFixed2Comma q)
    ∧ (∀ (eng : ℤ → Option String) (q : ℚ) (w : String), eng (pyInt q) = some w →
      hasSub (amountWords eng q) "DOLLARS" = true
      ∨ hasSub (amountWords eng q) "CENTS" = true) := by
  constructor
  · intro eng q h
    unfold amountWords
    rw [h]
  · intro eng q w h
    unfold amountWords
    rw [h]
    show hasSub (wordCleanup w) "DOLLARS" = true
      ∨ hasSub (wordCleanup w) "CENTS" = true
    unfold wordCleanup
    set u := (w.toUpper).replace " AND ZERO CENTS" " DOLLARS" with hu
    by_cases hc : hasSub u "CENTS" = true
    · rw [if_pos (by rw [hc]; rfl)]
      exact Or.inr hc
    · by_cases hd : hasSub u "DOLLARS" = true
      · rw [if_pos (by rw [hd]; simp)]
        exact Or.inl hd
      · rw [if_neg (by simp [Bool.not_eq_true] at hc hd; simp [hc, hd])]
        refine Or.inl (hasSub_append_right u " DOLLARS" "DOLLARS" ?_)
        decide

/-- Witness for C8: with an always-failing engine and total `1234.5`, the
step returns the exact fallback string, which renders as
`TOTAL AMOUNT: $1,234.50`. -/
theorem c8_words_total_witness :
    amountWords engNone (2469/2 : ℚ)
      = "TOTAL AMOUNT: $" ++ formatFixed2Comma (2469/2 : ℚ)
    ∧ formatFixed2Comma (2469/2 : ℚ) = "1,234.50" :=
  ⟨c8_words_total.1 engNone (2469/2 : ℚ) rfl, by with_unfolding_all decide⟩

/-- Claim C9 (confirmed): on an empty line-item sequence both composers still
produce a complete document: no data rows, total quantity `0`, total amount
`0`, a well-formed totals row, and a totals-in-words line (for any engine
behaviour; with a failing engine the `3app.py` words line carries the numeric
fallback). -/
theorem c9_empty_input_document (piNum dateStr cpoNum : String)
    (eng : ℤ → Option String) (p po sh : Option String) (nMD nDMY : String) :
    (generate_html_invoice [] piNum dateStr cpoNum).dataRows = []
    ∧ (generate_html_invoice [] piNum dateStr cpoNum).totalQty = 0
    ∧ (generate_html_invoice [] piNum dateStr cpoNum).totalAmount = 0
    ∧ (generate_html_invoice [] piNum dateStr cpoNum).totalsRow
        = ["Total", "0", "", "0.00USD"]
    ∧ (generate_html_invoice [] piNum dateStr cpoNum).words
        = "TOTAL US DOLLAR 0.00 DOLLARS"
    ∧ (generate_proforma_invoice [] eng p po sh nMD nDMY).dataRows = []
    ∧ (generate_proforma_invoice [] eng p po sh nMD nDMY).totalQty = 0
    ∧ (generate_proforma_invoice [] eng p po sh nMD nDMY).totalAmount = 0
    ∧ (generate_proforma_invoice [] eng p po sh nMD nDMY).totalsRow
        = ["", "", "", "", "", "", "", "Total", "0.00USD"]
    ∧ (generate_proforma_invoice [] eng p po sh nMD nDMY).words
        = "TOTAL US DOLLAR " ++ amountWords eng 0
    ∧ amountWords engNone 0 = "TOTAL AMOUNT: $0.00"
    ∧ (generate_proforma_invoice6 [] piNum dateStr cpoNum).dataRows = []
    ∧ (generate_proforma_invoice6 [] piNum dateStr cpoNum).totalsRow
        = ["", "", "", "", "", "Total", "0", "", "0.00USD"] := by
  refine ⟨rfl, rfl, rfl, ?_, ?_, rfl, rfl, rfl, ?_, ?_, ?_, rfl, ?_⟩ <;>
    with_unfolding_all rfl

/-- Claim C10 (counterexample): the `3app.py` generator is not independent of
when it runs, even with the PI number, PO reference and shipment date all
supplied: it stamps the current date (`datetime.now()`) into the header's
`Dt.` cell, so two invocations on different days produce different
documents. -/
theorem c10_counterexample :
    generateAtTime3 "0101" "01-01-2025" [] engNone (some "PI1") (some "PO1")
        (some "SD1")
      ≠ generateAtTime3 "0102" "02-01-2025" [] engNone (some "PI1") (some "PO1")
        (some "SD1") := by
  with_unfolding_all decide

/-- Claim C10 (amended): the `7app.py` and `6app.py` generators read no
ambient clock — two invocations at different times with identical records and
identical metadata produce identical documents; only the `3app.py` variant
depends on the current date (its header date is not a parameter). -/
theorem c10_time_independent (now1 now2 : String) (df : List RawRecord)
    (piNum dateStr cpoNum : String) :
    generateAtTime7 now1 df piNum dateStr cpoNum
      = generateAtTime7 now2 df piNum dateStr cpoNum
    ∧ generateAtTime6 now1 df piNum dateStr cpoNum
      = generateAtTime6 now2 df piNum dateStr cpoNum :=
  ⟨rfl, rfl⟩
